import Mathlib

/-!
Shallow embedding of the banking front end (accounts.py, session.py,
validators.py, transactions.py, frontend_app.py).

Monetary amounts are modelled exactly, in integer cents: the Python code
parses amounts with float(...) and compares/formats them with two decimal
digits; for the monetary literals this system handles (plain decimal
strings with at most two fraction digits) the float round-trip is exact, so
integer cents are a faithful model.  parseAmount models float(s)
restricted to such literals: any other string is mapped to none, the
ValueError path.

Input lines are modelled as a List String, each element one line of the
input stream without its trailing newline; readLine on an exhausted
stream returns the empty string, exactly as Python's readline() at EOF.
-/

namespace Banking

/-! ### String helpers mirroring Python primitives -/

/-- Python slice s[a:b] for 0 ≤ a ≤ b on a string. -/
def strSlice (s : String) (a b : Nat) : String :=
  (((s.toList).drop a).take (b - a)).asString

/-- Python s[i]: the character at index i, or none (IndexError) when the
string is too short. -/
def strAt (s : String) (i : Nat) : Option Char :=
  s.toList.get? i

/-- Python str.strip(): remove leading and trailing whitespace. -/
def pyStrip (s : String) : String :=
  (((s.toList.dropWhile Char.isWhitespace).reverse.dropWhile
      Char.isWhitespace).reverse).asString

/-- Python str.lower() (ASCII, which is all this system uses). -/
def pyLower (s : String) : String := (s.toList.map Char.toLower).asString

/-- Python str.upper() (ASCII, which is all this system uses). -/
def pyUpper (s : String) : String := (s.toList.map Char.toUpper).asString

/-- Whether the first character of s is c. -/
def firstIs (s : String) (c : Char) : Bool :=
  match s.toList with
  | [] => false
  | a :: _ => a = c

/-- Split a character list at every occurrence of the dot, like Python
s.split for a one-character separator. -/
def splitDot : List Char → List (List Char)
  | [] => [[]]
  | c :: cs =>
    if c = '.' then [] :: splitDot cs
    else
      match splitDot cs with
      | h :: t => (c :: h) :: t
      | [] => [[c]]

/-- Whether pat occurs at the head of l. -/
def startsList : List Char → List Char → Bool
  | [], _ => true
  | _ :: _, [] => false
  | a :: as, b :: bs => a = b && startsList as bs

/-- Whether pat occurs anywhere in l (Python substring containment). -/
def containsSeq (pat : List Char) : List Char → Bool
  | [] => startsList pat []
  | c :: cs => startsList pat (c :: cs) || containsSeq pat cs

/-- The decimal digit character for n < 10. -/
def digitChar (n : Nat) : Char := Char.ofNat (48 + n)

/-- Fuel-driven decimal rendering of a natural number, most significant
digit first; mirrors Python str(n) for a nonnegative int.  Structural in
the fuel so that the kernel can evaluate it. -/
def natStrAux : Nat → Nat → List Char
  | 0, _ => []
  | fuel + 1, n => if n < 10 then [digitChar n] else natStrAux fuel (n / 10) ++ [digitChar (n % 10)]

/-- Decimal rendering of a natural number (n + 1 is always enough fuel). -/
def natStr (n : Nat) : List Char := natStrAux (n + 1) n

/-- Exactly two decimal digits for n % 100, with a leading zero. -/
def twoDigits (n : Nat) : List Char := [digitChar (n / 10 % 10), digitChar (n % 10)]

/-- Python format spec :<w — left justify, pad with spaces to width w, no
truncation. -/
def padRight (s : String) (w : Nat) : String :=
  s ++ (List.replicate (w - s.length) ' ').asString

/-- Python format spec :>0w — right align, fill with the character 0 to
width w (the fill is plain, not sign aware, because the alignment is
explicit). -/
def zpadLeft (s : String) (w : Nat) : String :=
  (List.replicate (w - s.length) '0').asString ++ s

/-- Python str.zfill(w): left pad with zeros to total width w, keeping a
leading sign character in front of the zeros. -/
def zfill (s : String) (w : Nat) : String :=
  if firstIs s '-' || firstIs s '+' then
    strSlice s 0 1 ++ (List.replicate (w - s.length) '0').asString ++ strSlice s 1 s.length
  else
    (List.replicate (w - s.length) '0').asString ++ s

/-- Value of a digit string (empty list gives 0); none if any character is
not a decimal digit. -/
def digitsVal : List Char → Option Nat
  | cs =>
    if cs.all Char.isDigit then
      some (cs.foldl (fun a c => a * 10 + (c.toNat - 48)) 0) else none

/-- Models Python float(s) on the monetary strings this system handles:
optional surrounding whitespace, optional leading minus, digits with an
optional point and at most two fraction digits.  The result is in cents.
Any other string (Python would accept some, e.g. exponents or longer
fractions, but none occurs here) is mapped to none, which the callers
treat as the ValueError path. -/
def parseAmount (s : String) : Option Int :=
  let t := pyStrip s
  let (sign, body) : Int × String :=
    if firstIs t '-' then (-1, strSlice t 1 t.length) else (1, t)
  match splitDot body.toList with
  | [w] =>
    if w.length = 0 then none
    else (digitsVal w).map (fun n => sign * (n * 100 : Nat))
  | [w, f] =>
    if w.length + f.length = 0 then none
    else if f.length ≤ 2 then
      match digitsVal w, digitsVal f with
      | some wn, some fn =>
        some (sign * ((wn * 100 + (if f.length = 1 then fn * 10 else fn) : Nat)))
      | _, _ => none
    else none
  | _ => none

/-- Python substring test: True iff END_OF_FILE occurs in the line. -/
def hasEndOfFileTag (l : String) : Bool :=
  containsSeq ("END_OF_FILE".toList) l.toList

/-! ### Data model (accounts.py, session.py, transactions.py) -/

/-- Account record: accounts.py class Account.  balance is in cents. -/
structure Account where
  number : String
  holder : String
  status : Char
  balance : Int
deriving DecidableEq

/-- Transaction record: transactions.py class Transaction; misc defaults
to "00" at every construction site below.  amount is in cents. -/
structure Transaction where
  code : String
  name : String
  account_no : String
  amount : Int
  misc : String
deriving DecidableEq

/-- Session state: session.py class Session.  mode and user are None
until login. -/
structure Session where
  is_logged_in : Bool
  mode : Option String
  user : Option String
  withdraw_total : Int
deriving DecidableEq

/-- Session.__init__: logged out, no mode, no user. -/
def Session.initial : Session :=
  { is_logged_in := false, mode := none, user := none, withdraw_total := 0 }

/-- Session.login(mode, user): set the three fields (withdraw_total is
untouched by login). -/
def Session.doLogin (s : Session) (mode user : String) : Session :=
  { s with is_logged_in := true, mode := some mode, user := some user }

/-- Session.logout(): re-run __init__. -/
def Session.doLogout (_ : Session) : Session := Session.initial

/-- The account dictionary accounts_by_number, as an association list with
unique keys in insertion order (Python dict semantics). -/
abbrev Store := List (String × Account)

/-- Python dict lookup d[k] / membership. -/
def storeLookup : Store → String → Option Account
  | [], _ => none
  | p :: ps, k => if p.1 = k then some p.2 else storeLookup ps k

/-- Python dict assignment d[k] = v: overwrite in place if the key exists,
else append. -/
def storeInsert : Store → String → Account → Store
  | [], k, v => [(k, v)]
  | p :: ps, k, v => if p.1 = k then (k, v) :: ps else p :: storeInsert ps k v

/-! ### Validators (validators.py) -/

/-- Validators.validate_amount: 0 < amount <= 999999.99, in cents. -/
def validate_amount (a : Int) : Bool := 0 < a && a ≤ 99999999

/-- Validators.validate_name: after stripping, 0 < len <= 20. -/
def validate_name (n : String) : Bool :=
  let clean := pyStrip n
  0 < clean.length && clean.length ≤ 20

/-- Validators.validate_mode: lowercase form is standard or admin. -/
def validate_mode (m : String) : Bool :=
  pyLower m = "standard" || pyLower m = "admin"

/-! ### Transaction encoding (transactions.py) -/

/-- The characters of the Python format tx.amount:>08.2f restricted to
exact cents: sign, integer part, point, exactly two fraction digits, the
whole right-aligned and zero-filled to width 8. -/
def amountChars (a : Int) : List Char :=
  let body := natStr (a.natAbs / 100) ++ '.' :: twoDigits (a.natAbs % 100)
  let signed := if a < 0 then '-' :: body else body
  List.replicate (8 - signed.length) '0' ++ signed

def formatAmount (a : Int) : String := (amountChars a).asString

/-- One line of write_daily_transactions, before the newline:
the 41-character template
  code SP name:<20 SP account_no:>05 SP amount:>08.2f SP misc
explicitly sliced by line[:40]. -/
def encodeLine (tx : Transaction) : String :=
  let line := tx.code ++ " " ++ padRight tx.name 20 ++ " " ++
    zpadLeft tx.account_no 5 ++ " " ++ formatAmount tx.amount ++ " " ++ tx.misc
  (line.toList.take 40).asString

/-- TransactionManager.add_end_of_session: Transaction("00", " ", "00000",
0.0) with the default misc "00". -/
def endOfSessionTx : Transaction :=
  { code := "00", name := " ", account_no := "00000", amount := 0, misc := "00" }

/-- The lines write_daily_transactions appends to the daily transaction
file.  Note the source does not clear self.transactions afterwards. -/
def writeDailyLines (txs : List Transaction) : List String :=
  txs.map encodeLine

/-! ### Account file parsing (accounts.py) -/

/-- One iteration body of AccountManager.load_current_accounts:
num = line[0:5]; name = line[6:26].strip(); status = line[27];
bal = float(line[29:37]).  none models the uncaught IndexError /
ValueError on a malformed line (which kills the Python process). -/
def parseRecord (l : String) : Option (String × Account) :=
  match strAt l 27, parseAmount (strSlice l 29 37) with
  | some status, some bal =>
    let num := strSlice l 0 5
    some (num, { number := num, holder := pyStrip (strSlice l 6 26),
                 status := status, balance := bal })
  | _, _ => none

/-- AccountManager.load_current_accounts over the file's lines: stop at the
first line containing END_OF_FILE, otherwise insert the parsed record into
the existing dictionary (the source never resets the dictionary). -/
def loadLines : List String → Store → Option Store
  | [], s => some s
  | l :: ls, s =>
    if hasEndOfFileTag l then some s
    else
      match parseRecord l with
      | some r => loadLines ls (storeInsert s r.1 r.2)
      | none => none

/-- The parsed (key, account) pairs of the lines before the sentinel, in
file order; none if some pre-sentinel line is malformed. -/
def recordsOf : List String → Option (List (String × Account))
  | [] => some []
  | l :: ls =>
    if hasEndOfFileTag l then some []
    else
      match parseRecord l, recordsOf ls with
      | some r, some rs => some (r :: rs)
      | _, _ => none

/-- The last parsed record for a key, if any. -/
def lastRecord : List (String × Account) → String → Option Account
  | [], _ => none
  | r :: rs, k =>
    match lastRecord rs k with
    | some v => some v
    | none => if r.1 = k then some r.2 else none

/-- Option fallback: first if present, otherwise second. -/
def orLookup (a b : Option Account) : Option Account :=
  match a with
  | some v => some v
  | none => b

/-! ### Application state and handlers (frontend_app.py) -/

/-- The mutable state of FrontEndApp: the session, the account dictionary,
the pending transaction list, and the lines appended so far to the daily
transaction file. -/
structure AppState where
  session : Session
  accounts : Store
  transactions : List Transaction
  fileLines : List String
deriving DecidableEq

/-- FrontEndApp.__init__ state: fresh session, empty dictionary, empty
pending list; the daily file is modelled by the lines this run appends. -/
def initialState : AppState :=
  { session := Session.initial, accounts := [], transactions := [], fileLines := [] }

/-- input_source.readline(): next line, or the empty string at EOF. -/
def readLine : List String → String × List String
  | [] => ("", [])
  | l :: ls => (l, ls)

/-- FrontEndApp._check_login(admin_required). -/
def check_login (st : AppState) (admin_required : Bool) : Bool :=
  if !st.session.is_logged_in then false
  else if admin_required && st.session.mode != some "admin" then false
  else true

/-- FrontEndApp.login_transaction.  Reads the mode line; on a valid mode
reads the name line; on success calls session.login and
load_current_accounts on the accounts file.  none models the process
dying on a malformed accounts file (the load's exception is uncaught). -/
def login_transaction (accountsFile : List String) (st : AppState)
    (inp : List String) : Option (AppState × List String × Bool) :=
  if st.session.is_logged_in then some (st, inp, false)
  else
    let l1 := (readLine inp).1
    let inp1 := (readLine inp).2
    let mode := pyLower (pyStrip l1)
    if !validate_mode mode then some (st, inp1, false)
    else
      let l2 := (readLine inp1).1
      let inp2 := (readLine inp1).2
      let name := pyStrip l2
      if mode = "standard" then
        if !validate_name name then some (st, inp2, false)
        else
          (loadLines accountsFile st.accounts).map (fun acc =>
            ({ st with session := st.session.doLogin mode name, accounts := acc },
             inp2, true))
      else
        let user := if name = "" then "Admin" else name
        (loadLines accountsFile st.accounts).map (fun acc =>
          ({ st with session := st.session.doLogin mode user, accounts := acc },
           inp2, true))

/-- FrontEndApp.logout_transaction: add the end-of-session record, write
every pending transaction to the daily file (the pending list is NOT
cleared by the source), reset the session. -/
def logout_transaction (st : AppState) (inp : List String) :
    AppState × List String × Bool :=
  if !st.session.is_logged_in then (st, inp, false)
  else
    let txs := st.transactions ++ [endOfSessionTx]
    ({ st with session := st.session.doLogout,
               transactions := txs,
               fileLines := st.fileLines ++ writeDailyLines txs },
     inp, true)

/-- FrontEndApp.withdrawal_transaction.  The source checks membership of
the raw account string first, then parses the amount, validates it,
applies the standard-mode 500.00 ceiling, refetches the account and checks
the balance; the membership test and the refetch are the same lookup. -/
def withdrawal_transaction (st : AppState) (inp : List String) :
    AppState × List String × Bool :=
  if !st.session.is_logged_in then (st, inp, false)
  else
    let l1 := (readLine inp).1
    let inp1 := (readLine inp).2
    let account_num := pyStrip l1
    let l2 := (readLine inp1).1
    let inp2 := (readLine inp1).2
    let amount_str := pyStrip l2
    match storeLookup st.accounts account_num with
    | none => (st, inp2, false)
    | some account =>
      match parseAmount amount_str with
      | none => (st, inp2, false)
      | some amount =>
        if !validate_amount amount then (st, inp2, false)
        else if st.session.mode = some "standard" ∧ amount > 50000 then (st, inp2, false)
        else if amount > account.balance then (st, inp2, false)
        else
          ({ st with transactions := st.transactions ++
              [{ code := "01", name := account.holder, account_no := account_num,
                 amount := amount, misc := "00" }] }, inp2, true)

/-- FrontEndApp.transfer_transaction: both raw account strings must be
keys, both accounts Active; amount parsed, validated, standard ceiling
1000.00, balance check on the source; two records are added. -/
def transfer_transaction (st : AppState) (inp : List String) :
    AppState × List String × Bool :=
  if !st.session.is_logged_in then (st, inp, false)
  else
    let l1 := (readLine inp).1
    let inp1 := (readLine inp).2
    let from_num := pyStrip l1
    let l2 := (readLine inp1).1
    let inp2 := (readLine inp1).2
    let to_num := pyStrip l2
    let l3 := (readLine inp2).1
    let inp3 := (readLine inp2).2
    let amount_str := pyStrip l3
    match storeLookup st.accounts from_num, storeLookup st.accounts to_num with
    | some from_acc, some to_acc =>
      if from_acc.status ≠ 'A' ∨ to_acc.status ≠ 'A' then (st, inp3, false)
      else
        match parseAmount amount_str with
        | none => (st, inp3, false)
        | some amount =>
          if !validate_amount amount then (st, inp3, false)
          else if st.session.mode = some "standard" ∧ amount > 100000 then (st, inp3, false)
          else if amount > from_acc.balance then (st, inp3, false)
          else
            ({ st with transactions := st.transactions ++
                [{ code := "02", name := from_acc.holder, account_no := from_num,
                   amount := amount, misc := "00" },
                 { code := "02", name := to_acc.holder, account_no := to_num,
                   amount := amount, misc := "00" }] }, inp3, true)
    | _, _ => (st, inp3, false)

/-- FrontEndApp.paybill_transaction: company code must be EC, CQ or TV;
the account string is zero-filled to 5 before the lookup; a standard user
must own the account; amount parsed, validated, standard ceiling 1000.00,
balance check. -/
def paybill_transaction (st : AppState) (inp : List String) :
    AppState × List String × Bool :=
  if !st.session.is_logged_in then (st, inp, false)
  else
    let l1 := (readLine inp).1
    let inp1 := (readLine inp).2
    let raw_num := pyStrip l1
    let l2 := (readLine inp1).1
    let inp2 := (readLine inp1).2
    let company := pyUpper (pyStrip l2)
    let l3 := (readLine inp2).1
    let inp3 := (readLine inp2).2
    let amount_str := pyStrip l3
    if company ≠ "EC" ∧ company ≠ "CQ" ∧ company ≠ "TV" then (st, inp3, false)
    else
      let account_num := zfill raw_num 5
      match storeLookup st.accounts account_num with
      | none => (st, inp3, false)
      | some acc =>
        if st.session.mode = some "standard" ∧ st.session.user ≠ some acc.holder then
          (st, inp3, false)
        else
          match parseAmount amount_str with
          | none => (st, inp3, false)
          | some amount =>
            if !validate_amount amount then (st, inp3, false)
            else if st.session.mode = some "standard" ∧ amount > 100000 then (st, inp3, false)
            else if amount > acc.balance then (st, inp3, false)
            else
              ({ st with transactions := st.transactions ++
                  [{ code := "03", name := acc.holder, account_no := account_num,
                     amount := amount, misc := "00" }] }, inp3, true)

/-- FrontEndApp.deposit_transaction: the account string is zero-filled to
5 before the lookup; the account must be Active; a standard user must own
the account; amount parsed, validated, standard ceiling 1000.00; no
balance check. -/
def deposit_transaction (st : AppState) (inp : List String) :
    AppState × List String × Bool :=
  if !st.session.is_logged_in then (st, inp, false)
  else
    let l1 := (readLine inp).1
    let inp1 := (readLine inp).2
    let raw_num := pyStrip l1
    let l2 := (readLine inp1).1
    let inp2 := (readLine inp1).2
    let amount_str := pyStrip l2
    let account_num := zfill raw_num 5
    match storeLookup st.accounts account_num with
    | none => (st, inp2, false)
    | some acc =>
      if acc.status ≠ 'A' then (st, inp2, false)
      else if st.session.mode = some "standard" ∧ st.session.user ≠ some acc.holder then
        (st, inp2, false)
      else
        match parseAmount amount_str with
        | none => (st, inp2, false)
        | some amount =>
          if !validate_amount amount then (st, inp2, false)
          else if st.session.mode = some "standard" ∧ amount > 100000 then (st, inp2, false)
          else
            ({ st with transactions := st.transactions ++
                [{ code := "04", name := acc.holder, account_no := account_num,
                   amount := amount, misc := "00" }] }, inp2, true)

/-- FrontEndApp.create_transaction: admin only; on an authorization
failure the two argument lines are still consumed; name validated and
checked against existing holders; balance parsed and validated. -/
def create_transaction (st : AppState) (inp : List String) :
    AppState × List String × Bool :=
  if !check_login st true then
    (st, (readLine (readLine inp).2).2, false)
  else
    let l1 := (readLine inp).1
    let inp1 := (readLine inp).2
    let name := pyStrip l1
    let l2 := (readLine inp1).1
    let inp2 := (readLine inp1).2
    let balance_str := pyStrip l2
    if !validate_name name then (st, inp2, false)
    else if st.accounts.any (fun p => p.2.holder = name) then (st, inp2, false)
    else
      match parseAmount balance_str with
      | none => (st, inp2, false)
      | some balance =>
        if !validate_amount balance then (st, inp2, false)
        else
          ({ st with transactions := st.transactions ++
              [{ code := "05", name := name, account_no := "00000",
                 amount := balance, misc := "00" }] }, inp2, true)

/-- FrontEndApp.delete_transaction: admin only (two lines consumed on
authorization failure); raw account lookup; holder must match the given
name; account must be Active. -/
def delete_transaction (st : AppState) (inp : List String) :
    AppState × List String × Bool :=
  if !check_login st true then
    (st, (readLine (readLine inp).2).2, false)
  else
    let l1 := (readLine inp).1
    let inp1 := (readLine inp).2
    let name := pyStrip l1
    let l2 := (readLine inp1).1
    let inp2 := (readLine inp1).2
    let acc_num := pyStrip l2
    match storeLookup st.accounts acc_num with
    | none => (st, inp2, false)
    | some acc =>
      if acc.holder ≠ name then (st, inp2, false)
      else if acc.status ≠ 'A' then (st, inp2, false)
      else
        ({ st with transactions := st.transactions ++
            [{ code := "06", name := name, account_no := acc_num,
               amount := 0, misc := "00" }] }, inp2, true)

/-- FrontEndApp.disable_transaction: same shape as delete, code 07. -/
def disable_transaction (st : AppState) (inp : List String) :
    AppState × List String × Bool :=
  if !check_login st true then
    (st, (readLine (readLine inp).2).2, false)
  else
    let l1 := (readLine inp).1
    let inp1 := (readLine inp).2
    let name := pyStrip l1
    let l2 := (readLine inp1).1
    let inp2 := (readLine inp1).2
    let acc_num := pyStrip l2
    match storeLookup st.accounts acc_num with
    | none => (st, inp2, false)
    | some acc =>
      if acc.holder ≠ name then (st, inp2, false)
      else if acc.status ≠ 'A' then (st, inp2, false)
      else
        ({ st with transactions := st.transactions ++
            [{ code := "07", name := name, account_no := acc_num,
               amount := 0, misc := "00" }] }, inp2, true)

/-- FrontEndApp.changeplan_transaction: the later of the two definitions
in the source (Python keeps the last), with existence, holder-match and
Active checks; code 08. -/
def changeplan_transaction (st : AppState) (inp : List String) :
    AppState × List String × Bool :=
  if !check_login st true then
    (st, (readLine (readLine inp).2).2, false)
  else
    let l1 := (readLine inp).1
    let inp1 := (readLine inp).2
    let name := pyStrip l1
    let l2 := (readLine inp1).1
    let inp2 := (readLine inp1).2
    let acc_num := pyStrip l2
    match storeLookup st.accounts acc_num with
    | none => (st, inp2, false)
    | some acc =>
      if acc.holder ≠ name then (st, inp2, false)
      else if acc.status ≠ 'A' then (st, inp2, false)
      else
        ({ st with transactions := st.transactions ++
            [{ code := "08", name := name, account_no := acc_num,
               amount := 0, misc := "00" }] }, inp2, true)

/-- States reachable from the initial state using only the login and
logout operations of the front end (with some accounts file and some
input lines at each step). -/
inductive ReachableLL : AppState → Prop
  | init : ReachableLL initialState
  | login (file : List String) (st : AppState) (inp : List String)
      (r : AppState × List String × Bool) :
      ReachableLL st → login_transaction file st inp = some r → ReachableLL r.1
  | logout (st : AppState) (inp : List String) :
      ReachableLL st → ReachableLL (logout_transaction st inp).1

/-! ### Concrete fixtures used by witnesses and counterexamples -/

/-- The spec scenario's account master file line for Alice Smith. -/
def aliceLine : String := "00010 Alice Smith          A  0250.00"

/-- A second well-formed account line, for account 00020 / Bob. -/
def bobLine : String := "00020 Bob                  A  0100.00"

/-- Accounts file of the spec scenario. -/
def demoFile : List String := [aliceLine, "END_OF_FILE"]

/-- The spec scenario's accepted withdrawal transaction object:
Transaction("01", "Alice Smith", "00010", 100.00). -/
def aliceTx : Transaction :=
  { code := "01", name := "Alice Smith", account_no := "00010",
    amount := 10000, misc := "00" }

/-- The run of the C1 scenario: login, one accepted withdrawal, logout,
then a second login and logout in the same run. -/
def demoRun : Option AppState :=
  (login_transaction demoFile initialState ["standard", "Alice Smith"]).bind
    (fun r1 =>
      let r2 := withdrawal_transaction r1.1 ["00010", "100.00"]
      let r3 := logout_transaction r2.1 []
      (login_transaction demoFile r3.1 ["standard", "Alice Smith"]).map
        (fun r4 => (logout_transaction r4.1 []).1))

/-- The daily-file line the code writes for the scenario withdrawal. -/
def aliceRecord : String := "01 Alice Smith          00010 00100.00 0"

/-- The daily-file line the code writes for the end-of-session record. -/
def eosRecord : String := "00                      00000 00000.00 0"

/-- The account object parsed from aliceLine. -/
def aliceAcc : Account :=
  { number := "00010", holder := "Alice Smith", status := 'A', balance := 25000 }

/-- The account object parsed from bobLine. -/
def bobAcc : Account :=
  { number := "00020", holder := "Bob", status := 'A', balance := 10000 }

/-- Alice's account with a balance large enough to exercise the ceilings. -/
def aliceRich : Account :=
  { number := "00010", holder := "Alice Smith", status := 'A', balance := 150000 }

/-- Bob's account with a balance large enough to exercise the ceilings. -/
def bobRich : Account :=
  { number := "00020", holder := "Bob", status := 'A', balance := 150000 }

/-- An already-logged-in standard session state with an empty store. -/
def demoLoggedIn : AppState :=
  { session := { is_logged_in := true, mode := some "standard",
                 user := some "Alice Smith", withdraw_total := 0 },
    accounts := [], transactions := [], fileLines := [] }

/-- A standard session for Alice Smith over a two-account store with
balances large enough to exercise the ceilings. -/
def demoStandard : AppState :=
  { session := { is_logged_in := true, mode := some "standard",
                 user := some "Alice Smith", withdraw_total := 0 },
    accounts := [("00010", aliceRich), ("00020", bobRich)],
    transactions := [], fileLines := [] }

/-- An admin session over the same two-account store. -/
def demoAdmin : AppState :=
  { demoStandard with
    session := { is_logged_in := true, mode := some "admin",
                 user := some "Admin", withdraw_total := 0 } }

/-! ### Generic lemmas about the string helpers -/

theorem asString_data (l : List Char) : (l.asString).data = l := rfl

theorem asString_length (l : List Char) : (l.asString).length = l.length := rfl

theorem toList_eq_data (s : String) : s.toList = s.data := rfl

theorem strLength_eq_data (s : String) : s.length = s.data.length := rfl

theorem toList_length (s : String) : s.toList.length = s.length := rfl

theorem append_data (s t : String) : (s ++ t).data = s.data ++ t.data := by
  cases s; cases t; rfl

theorem strLength_append (s t : String) : (s ++ t).length = s.length + t.length := by
  show (s ++ t).data.length = s.data.length + t.data.length
  rw [append_data, List.length_append]

theorem space_data : (" " : String).data = [' '] := rfl

theorem space_length : (" " : String).length = 1 := rfl

theorem natStrAux_length_le (fuel : Nat) : ∀ n k, n < fuel → n < 10 ^ k → 1 ≤ k →
    (natStrAux fuel n).length ≤ k := by
  induction fuel with
  | zero => intro n k h; omega
  | succ f ih =>
    intro n k hf hk h1
    unfold natStrAux
    by_cases h10 : n < 10
    · simp [h10]; omega
    · have hk2 : 2 ≤ k := by
        rcases Nat.lt_or_ge k 2 with h2 | h2
        · have hk1 : k = 1 := by omega
          subst hk1; simp at hk; omega
        · exact h2
      have hdiv : n / 10 < n := Nat.div_lt_self (by omega) (by omega)
      have hdp : n / 10 < 10 ^ (k - 1) := by
        have hk1 : k - 1 + 1 = k := by omega
        have h10k : 10 ^ (k - 1) * 10 = 10 ^ k := by
          calc 10 ^ (k - 1) * 10 = 10 ^ (k - 1 + 1) := (pow_succ 10 (k - 1)).symm
          _ = 10 ^ k := by rw [hk1]
        rw [Nat.div_lt_iff_lt_mul (by omega), h10k]
        exact hk
      have := ih (n / 10) (k - 1) (by omega) hdp (by omega)
      simp [h10, List.length_append]
      omega

theorem natStr_length_le (n k : Nat) (hk : n < 10 ^ k) (h1 : 1 ≤ k) :
    (natStr n).length ≤ k :=
  natStrAux_length_le (n + 1) n k (by omega) hk h1

theorem amountChars_length_ge (a : Int) : 8 ≤ (amountChars a).length := by
  unfold amountChars
  by_cases h : a < 0 <;> simp [h, List.length_append] <;> omega

theorem amountChars_length_eq (a : Int) (h0 : 0 ≤ a) (h : a ≤ 9999999) :
    (amountChars a).length = 8 := by
  have hq : a.natAbs / 100 < 10 ^ 5 := by
    have h1 : a.natAbs ≤ 9999999 := by omega
    have : a.natAbs / 100 < 100000 := by omega
    simpa using this
  have hlen := natStr_length_le (a.natAbs / 100) 5 hq (by omega)
  have hneg : ¬ a < 0 := by omega
  unfold amountChars
  simp [hneg, List.length_append, twoDigits]
  omega

/-! ### Claim theorems -/

/-- Claim C3: every pending transaction with a 2-character type code, a
name of at most 20 characters, an account string of at most 5 characters,
a nonempty auxiliary code, and an amount in the valid 0..999999.99 range
is written to the daily transaction file as a line of exactly 40
characters (the newline excluded): the 41-character template is sliced by
line[:40], and the slice is saturated. -/
theorem c3_line_is_40_chars (tx : Transaction) (hc : tx.code.length = 2)
    (hn : tx.name.length ≤ 20) (ha : tx.account_no.length ≤ 5)
    (hm : 1 ≤ tx.misc.length) (h0 : 0 ≤ tx.amount) (hM : tx.amount ≤ 99999999) :
    (encodeLine tx).length = 40 := by
  have hF := amountChars_length_ge tx.amount
  simp only [encodeLine]
  rw [asString_length, List.length_take, toList_length]
  simp only [strLength_append, padRight, zpadLeft, formatAmount, asString_length,
    List.length_replicate, space_length]
  omega

/-- Witness for C3 at the spec scenario's withdrawal transaction. -/
theorem c3_line_is_40_chars_witness : (encodeLine aliceTx).length = 40 :=
  c3_line_is_40_chars aliceTx (by decide) (by decide) (by decide) (by decide)
    (by decide) (by decide)

/-- Claim C2 as stated is false: the daily-file line for the spec
scenario's accepted withdrawal is not the spec's record; the written line
is the 41-character template sliced to 40, which cuts the auxiliary code
to its first character. -/
theorem c2_full_misc_counterexample :
    encodeLine aliceTx ≠ "01 Alice Smith           00010 00100.00 00" := by
  decide

/-- Claim C2 amended: the written line follows the layout
CC AAAAAAAAAAAAAAAAAAAA NNNNN PPPPPPPP M where the final field is only
the FIRST character of the 2-character auxiliary code (the 41-character
template is sliced to 40); in the scenario the accepted withdrawal is
written as 01 Alice Smith<9 spaces> 00010 00100.00 0. -/
theorem c2_record_layout :
    (∀ tx : Transaction, tx.code.length = 2 → tx.name.length ≤ 20 →
      tx.account_no.length ≤ 5 → 0 ≤ tx.amount → tx.amount ≤ 9999999 →
      encodeLine tx = tx.code ++ " " ++ padRight tx.name 20 ++ " " ++
        zpadLeft tx.account_no 5 ++ " " ++ formatAmount tx.amount ++ " " ++
        strSlice tx.misc 0 1) ∧
    encodeLine aliceTx = "01 Alice Smith          00010 00100.00 0" := by
  constructor
  · intro tx hc hn ha h0 hM
    have hF := amountChars_length_eq tx.amount h0 hM
    apply String.ext
    simp only [encodeLine, strSlice, formatAmount, toList_eq_data, asString_data,
      append_data, space_data]
    have hpre : (tx.code.data ++ [' '] ++ (padRight tx.name 20).data ++ [' '] ++
        (zpadLeft tx.account_no 5).data ++ [' '] ++ amountChars tx.amount ++
        [' ']).length = 39 := by
      simp only [padRight, zpadLeft, append_data, asString_data, List.length_append,
        List.length_replicate, List.length_cons, List.length_nil]
      have e1 : tx.name.length = tx.name.data.length := rfl
      have e2 : tx.account_no.length = tx.account_no.data.length := rfl
      have e3 : tx.code.length = tx.code.data.length := rfl
      omega
    have hle : (tx.code.data ++ [' '] ++ (padRight tx.name 20).data ++ [' '] ++
        (zpadLeft tx.account_no 5).data ++ [' '] ++ amountChars tx.amount ++
        [' ']).length ≤ 40 := by rw [hpre]; norm_num
    rw [List.take_append_eq_append_take, hpre, List.take_of_length_le hle]
    norm_num
  · decide

/-- Witness for the amended C2 layout at the scenario transaction. -/
theorem c2_record_layout_witness :
    encodeLine aliceTx = "01" ++ " " ++ padRight "Alice Smith" 20 ++ " " ++
      zpadLeft "00010" 5 ++ " " ++ formatAmount 10000 ++ " " ++
      strSlice "00" 0 1 :=
  c2_record_layout.1 aliceTx (by decide) (by decide) (by decide) (by decide)
    (by decide)

/-- Claim C8: a second login while already logged in is rejected without
reading any argument lines; the whole state (session fields, account
store, pending transactions) and the input stream are unchanged and the
handler reports failure, whatever arguments follow. -/
theorem c8_second_login_rejected (file : List String) (st : AppState)
    (inp : List String) (h : st.session.is_logged_in = true) :
    login_transaction file st inp = some (st, inp, false) := by
  simp [login_transaction, h]

/-- Witness for C8: a logged-in standard session rejects a second login. -/
theorem c8_second_login_rejected_witness :
    login_transaction [] demoLoggedIn ["admin", "X"] =
      some (demoLoggedIn, ["admin", "X"], false) :=
  c8_second_login_rejected [] demoLoggedIn ["admin", "X"] rfl

/-- Claim C1 is the code's stated intent, but the code has a bug:
write_daily_transactions never clears self.transactions, so in this run
(login, one accepted withdrawal, logout, login, logout) the second logout
re-writes the first session's withdrawal record and end-of-session record.
The daily file receives the withdrawal line twice although only one
withdrawal was accepted. -/
theorem c1_flush_never_clears :
    demoRun.map (fun st => st.fileLines) =
      some [aliceRecord, eosRecord, aliceRecord, eosRecord, eosRecord] ∧
    (some [aliceRecord, eosRecord, aliceRecord, eosRecord, eosRecord] :
        Option (List String)) ≠
      some [aliceRecord, eosRecord, eosRecord] := by
  constructor
  · decide
  · decide

theorem readLine_twice_drop (inp : List String) :
    (readLine (readLine inp).2).2 = inp.drop 2 := by
  match inp with
  | [] => rfl
  | [a] => rfl
  | a :: b :: r => rfl

/-- Claim C4 as stated is false: a logged-out withdrawal is rejected
before its two argument lines are read, so the input stream is NOT kept
aligned for the non-admin command types. -/
theorem c4_consume_counterexample :
    (withdrawal_transaction initialState ["00010", "100.00"]).2.1 =
      ["00010", "100.00"] ∧
    (["00010", "100.00"] : List String) ≠ List.drop 2 ["00010", "100.00"] := by
  constructor
  · decide
  · decide

/-- Claim C4 amended: only the four admin-only handlers (create, delete,
disable, changeplan) consume their two argument lines when rejected on
authorization grounds; withdrawal, transfer, paybill and deposit consume
no argument lines when rejected for not being logged in, and a rejected
second login consumes none either. -/
theorem c4_argument_consumption (file : List String) (st : AppState)
    (inp : List String) :
    (check_login st true = false →
      (create_transaction st inp).2.1 = inp.drop 2 ∧
      (delete_transaction st inp).2.1 = inp.drop 2 ∧
      (disable_transaction st inp).2.1 = inp.drop 2 ∧
      (changeplan_transaction st inp).2.1 = inp.drop 2) ∧
    (st.session.is_logged_in = false →
      (withdrawal_transaction st inp).2.1 = inp ∧
      (transfer_transaction st inp).2.1 = inp ∧
      (paybill_transaction st inp).2.1 = inp ∧
      (deposit_transaction st inp).2.1 = inp) ∧
    (st.session.is_logged_in = true →
      (login_transaction file st inp).map (fun r => r.2.1) = some inp) := by
  refine ⟨fun h => ?_, fun h => ?_, fun h => ?_⟩
  · simp [create_transaction, delete_transaction, disable_transaction,
      changeplan_transaction, h, readLine_twice_drop]
  · simp [withdrawal_transaction, transfer_transaction, paybill_transaction,
      deposit_transaction, h]
  · simp [login_transaction, h]

/-- Witness for the amended C4: concrete logged-out and logged-in states. -/
theorem c4_argument_consumption_witness :
    (create_transaction initialState ["a", "b", "c"]).2.1 = ["c"] ∧
    (withdrawal_transaction initialState ["a", "b", "c"]).2.1 = ["a", "b", "c"] ∧
    (login_transaction [] demoLoggedIn ["a"]).map (fun r => r.2.1) = some ["a"] :=
  ⟨((c4_argument_consumption [] initialState ["a", "b", "c"]).1 (by decide)).1,
   ((c4_argument_consumption [] initialState ["a", "b", "c"]).2.1 (by decide)).1,
   (c4_argument_consumption [] demoLoggedIn ["a"]).2.2 (by decide)⟩

/-- Claim C10: deposit and paybill zero-fill the typed account string to 5
characters before the dictionary lookup, so the short input 10 behaves
exactly like 00010 for them; withdrawal, transfer, delete, disable and
changeplan look up the raw string, so the same short input is rejected
(account not found) even while 00010 is in the store. -/
theorem c10_zfill_lookup (st : AppState) (acc : Account)
    (hlog : st.session.is_logged_in = true) :
    (∀ r : List String, deposit_transaction st ("10" :: r) =
      deposit_transaction st ("00010" :: r)) ∧
    (∀ r : List String, paybill_transaction st ("10" :: r) =
      paybill_transaction st ("00010" :: r)) ∧
    (storeLookup st.accounts "00010" = some acc →
      storeLookup st.accounts "10" = none →
      ∀ a b : String,
        withdrawal_transaction st ["10", a] = (st, [], false) ∧
        transfer_transaction st ["10", a, b] = (st, [], false) ∧
        (check_login st true = true →
          delete_transaction st [a, "10"] = (st, [], false) ∧
          disable_transaction st [a, "10"] = (st, [], false) ∧
          changeplan_transaction st [a, "10"] = (st, [], false))) := by
  have hz1 : zfill (pyStrip "10") 5 = "00010" := by decide
  have hz2 : zfill (pyStrip "00010") 5 = "00010" := by decide
  have h10 : pyStrip "10" = "10" := by decide
  refine ⟨fun r => ?_, fun r => ?_, fun hsome hnone a b => ?_⟩
  · simp [deposit_transaction, readLine, hz1, hz2, hlog]
  · simp [paybill_transaction, readLine, hz1, hz2, hlog]
  refine ⟨?_, ?_, fun hadm => ?_⟩
  · simp [withdrawal_transaction, hlog, readLine, h10, hnone]
  · simp [transfer_transaction, hlog, readLine, h10, hnone]
  · simp only [delete_transaction, disable_transaction, changeplan_transaction, hadm]
    simp [readLine, h10, hnone]

/-- Witness for C10 over the concrete standard-session store. -/
theorem c10_zfill_lookup_witness :
    deposit_transaction demoStandard ["10", "20.00"] =
      deposit_transaction demoStandard ["00010", "20.00"] ∧
    withdrawal_transaction demoStandard ["10", "20.00"] =
      (demoStandard, [], false) :=
  ⟨(c10_zfill_lookup demoStandard aliceAcc rfl).1 ["20.00"],
   (((c10_zfill_lookup demoStandard
        { number := "00010", holder := "Alice Smith", status := 'A',
          balance := 150000 } rfl).2.2 (by decide) (by decide)) "20.00" "x").1⟩

/-- Claim C7: whenever any handler reports a failure (any rejection
reason: authorization, unknown account, inactive account, invalid name or
amount, ceiling, insufficient funds, name mismatch), the application
state — session, account store, pending transactions and daily file — is
returned unchanged: rejection is atomic. -/
theorem c7_rejection_atomic (file : List String) (st : AppState)
    (inp : List String) :
    (∀ r, login_transaction file st inp = some r → r.2.2 = false → r.1 = st) ∧
    ((logout_transaction st inp).2.2 = false →
      (logout_transaction st inp).1 = st) ∧
    ((withdrawal_transaction st inp).2.2 = false →
      (withdrawal_transaction st inp).1 = st) ∧
    ((transfer_transaction st inp).2.2 = false →
      (transfer_transaction st inp).1 = st) ∧
    ((paybill_transaction st inp).2.2 = false →
      (paybill_transaction st inp).1 = st) ∧
    ((deposit_transaction st inp).2.2 = false →
      (deposit_transaction st inp).1 = st) ∧
    ((create_transaction st inp).2.2 = false →
      (create_transaction st inp).1 = st) ∧
    ((delete_transaction st inp).2.2 = false →
      (delete_transaction st inp).1 = st) ∧
    ((disable_transaction st inp).2.2 = false →
      (disable_transaction st inp).1 = st) ∧
    ((changeplan_transaction st inp).2.2 = false →
      (changeplan_transaction st inp).1 = st) := by
  refine ⟨?_, ?_, ?_, ?_, ?_, ?_, ?_, ?_, ?_, ?_⟩
  · intro r hr hf
    simp only [login_transaction] at hr
    split at hr
    · rw [Option.some.injEq] at hr; subst hr; rfl
    · split at hr
      · rw [Option.some.injEq] at hr; subst hr; rfl
      · split at hr
        · split at hr
          · rw [Option.some.injEq] at hr; subst hr; rfl
          · rcases hL : loadLines file st.accounts with _ | acc <;> rw [hL] at hr
            · simp at hr
            · simp only [Option.map_some', Option.some.injEq] at hr
              subst hr; simp at hf
        · rcases hL : loadLines file st.accounts with _ | acc <;> rw [hL] at hr
          · simp at hr
          · simp only [Option.map_some', Option.some.injEq] at hr
            subst hr; simp at hf
  all_goals
    simp only [logout_transaction, withdrawal_transaction, transfer_transaction,
      paybill_transaction, deposit_transaction, create_transaction,
      delete_transaction, disable_transaction, changeplan_transaction]
    repeat' split
    all_goals intro h
    all_goals simp_all

/-- Witness for C7: each handler's rejection in a concrete state leaves
the state unchanged. -/
theorem c7_rejection_atomic_witness :
    (withdrawal_transaction initialState ["00010", "1.00"]).1 = initialState ∧
    (create_transaction demoStandard ["X", "1.00"]).1 = demoStandard :=
  ⟨(c7_rejection_atomic [] initialState ["00010", "1.00"]).2.2.1 (by decide),
   (c7_rejection_atomic [] demoStandard ["X", "1.00"]).2.2.2.2.2.2.1 (by decide)⟩

/-- Claim C9: in every state reachable from the initial state by the
front end's login and logout operations, session.mode and session.user
are non-None exactly when session.is_logged_in is true. -/
theorem c9_session_invariant (st : AppState) (h : ReachableLL st) :
    ((st.session.mode ≠ none ∧ st.session.user ≠ none) ↔
      st.session.is_logged_in = true) := by
  induction h with
  | init => simp [initialState, Session.initial]
  | login file st0 inp r hr hstep ih =>
    simp only [login_transaction] at hstep
    split at hstep
    · rw [Option.some.injEq] at hstep; subst hstep; exact ih
    · split at hstep
      · rw [Option.some.injEq] at hstep; subst hstep; exact ih
      · split at hstep
        · split at hstep
          · rw [Option.some.injEq] at hstep; subst hstep; exact ih
          · rcases hL : loadLines file st0.accounts with _ | acc <;>
              rw [hL] at hstep
            · simp at hstep
            · simp only [Option.map_some', Option.some.injEq] at hstep
              subst hstep; simp [Session.doLogin]
        · rcases hL : loadLines file st0.accounts with _ | acc <;>
            rw [hL] at hstep
          · simp at hstep
          · simp only [Option.map_some', Option.some.injEq] at hstep
            subst hstep; simp [Session.doLogin]
  | logout st0 inp hr ih =>
    simp only [logout_transaction]
    split
    · exact ih
    · simp [Session.doLogout, Session.initial]

/-- Witness for C9 at the initial state. -/
theorem c9_session_invariant_witness :
    ((initialState.session.mode ≠ none ∧ initialState.session.user ≠ none) ↔
      initialState.session.is_logged_in = true) :=
  c9_session_invariant initialState ReachableLL.init

theorem storeLookup_insert (s : Store) (k k' : String) (v : Account) :
    storeLookup (storeInsert s k v) k' =
      if k = k' then some v else storeLookup s k' := by
  induction s with
  | nil => simp [storeInsert, storeLookup]
  | cons p ps ih =>
    simp only [storeInsert]
    by_cases h1 : p.1 = k
    · rw [if_pos h1]
      by_cases h2 : k = k'
      · simp [storeLookup, h2]
      · have h3 : ¬ p.1 = k' := by rw [h1]; exact h2
        simp [storeLookup, h2, h3]
    · rw [if_neg h1]
      by_cases h2 : p.1 = k'
      · have h3 : ¬ k = k' := fun e => h1 (by rw [h2, e])
        simp [storeLookup, h2, h3]
      · simp [storeLookup, h2, ih]

theorem loadLines_eq_records (ls : List String) : ∀ s : Store,
    loadLines ls s =
      (recordsOf ls).map
        (fun rs => rs.foldl (fun t r => storeInsert t r.1 r.2) s) := by
  induction ls with
  | nil => intro s; simp [loadLines, recordsOf]
  | cons l ls ih =>
    intro s
    by_cases h : hasEndOfFileTag l = true
    · simp [loadLines, recordsOf, h]
    · cases hp : parseRecord l with
      | none => simp [loadLines, recordsOf, h, hp]
      | some r =>
        cases hr : recordsOf ls with
        | none =>
          have hrec := ih (storeInsert s r.1 r.2)
          rw [hr] at hrec
          simp only [Option.map_none'] at hrec
          simp [loadLines, recordsOf, h, hp, hr, hrec]
        | some rs =>
          have hrec := ih (storeInsert s r.1 r.2)
          rw [hr] at hrec
          simp only [Option.map_some'] at hrec
          simp [loadLines, recordsOf, h, hp, hr, hrec, List.foldl_cons]

theorem storeLookup_fold (rs : List (String × Account)) : ∀ (s : Store) (k : String),
    storeLookup (rs.foldl (fun t r => storeInsert t r.1 r.2) s) k =
      orLookup (lastRecord rs k) (storeLookup s k) := by
  induction rs with
  | nil => intro s k; simp [lastRecord, orLookup]
  | cons r rs ih =>
    intro s k
    simp only [List.foldl_cons]
    rw [ih, storeLookup_insert]
    simp only [lastRecord]
    cases hlr : lastRecord rs k with
    | some v => simp [orLookup]
    | none => by_cases hr1 : r.1 = k <;> simp [orLookup, hr1]

theorem loadLines_sentinel (pre : List String) (sline : String)
    (post : List String) : ∀ s : Store,
    (∀ l ∈ pre, hasEndOfFileTag l = false) → hasEndOfFileTag sline = true →
    loadLines (pre ++ sline :: post) s = loadLines pre s := by
  induction pre with
  | nil => intro s _ hs; simp [loadLines, hs]
  | cons l ls ih =>
    intro s hpre hs
    have hl : hasEndOfFileTag l = false := hpre l (by simp)
    simp only [List.cons_append, loadLines, hl, if_false, Bool.false_eq_true]
    cases hp : parseRecord l with
    | none => simp
    | some r => simp [ih _ (fun x hx => hpre x (by simp [hx])) hs]

/-- Claim C5 as stated is false: entries present in the store before the
call that do not appear in the file are NOT removed — the source inserts
into the existing dictionary without resetting it.  Loading a file that
contains only Bob's account into a store holding Alice's account keeps
Alice's entry. -/
theorem c5_replace_counterexample :
    (loadLines [bobLine, "END_OF_FILE"] [("00010", aliceAcc)]).map
      (fun s => storeLookup s "00010") = some (some aliceAcc) := by decide

/-- Claim C5 amended: load parses the lines before the first END_OF_FILE
sentinel (later lines are ignored) and MERGES them into the pre-existing
mapping: each parsed record overwrites a same-numbered entry (the last
occurrence in the file winning), while entries absent from the file are
retained. -/
theorem c5_load_merges :
    (∀ (pre post : List String) (sline : String) (s : Store),
      (∀ l ∈ pre, hasEndOfFileTag l = false) → hasEndOfFileTag sline = true →
      loadLines (pre ++ sline :: post) s = loadLines pre s) ∧
    (∀ (ls : List String) (s s' : Store) (rs : List (String × Account)),
      loadLines ls s = some s' → recordsOf ls = some rs →
      ∀ k, storeLookup s' k = orLookup (lastRecord rs k) (storeLookup s k)) := by
  constructor
  · intro pre post sline s hpre hs
    exact loadLines_sentinel pre sline post s hpre hs
  · intro ls s s' rs hload hrec k
    rw [loadLines_eq_records, hrec] at hload
    simp only [Option.map_some', Option.some.injEq] at hload
    subst hload
    exact storeLookup_fold rs s k

/-- Witness for the amended C5 on a concrete file and pre-existing store. -/
theorem c5_load_merges_witness :
    loadLines ([bobLine] ++ "END_OF_FILE" :: ["garbage"]) [("00010", aliceAcc)] =
      loadLines [bobLine] [("00010", aliceAcc)] ∧
    storeLookup [("00010", aliceAcc), ("00020", bobAcc)] "00010" =
      orLookup (lastRecord [("00020", bobAcc)] "00010")
        (storeLookup [("00010", aliceAcc)] "00010") :=
  ⟨c5_load_merges.1 [bobLine] ["garbage"] "END_OF_FILE" [("00010", aliceAcc)]
      (by decide) (by decide),
   c5_load_merges.2 [bobLine] [("00010", aliceAcc)]
      [("00010", aliceAcc), ("00020", bobAcc)] [("00020", bobAcc)]
      (by decide) (by decide) "00010"⟩

/-- Claim C6: in a standard-mode session an amount exactly equal to the
ceiling (500.00 for withdrawal, 1000.00 for transfer, paybill, deposit)
is accepted when the referenced accounts exist (Active where required,
owned where required) and cover the amount, while any amount strictly
greater than the ceiling is rejected; amounts are exact cents, with no
floating-point tolerance. -/
theorem c6_standard_ceilings (st : AppState) (accLine toLine : String)
    (acc acc2 : Account) (rest : List String)
    (hlog : st.session.is_logged_in = true)
    (hmode : st.session.mode = some "standard") :
    (storeLookup st.accounts (pyStrip accLine) = some acc →
      50000 ≤ acc.balance →
      withdrawal_transaction st (accLine :: "500.00" :: rest) =
        ({ st with transactions := st.transactions ++
            [{ code := "01", name := acc.holder, account_no := pyStrip accLine,
               amount := 50000, misc := "00" }] }, rest, true)) ∧
    (∀ amtLine a, storeLookup st.accounts (pyStrip accLine) = some acc →
      parseAmount (pyStrip amtLine) = some a → 50000 < a →
      withdrawal_transaction st (accLine :: amtLine :: rest) =
        (st, rest, false)) ∧
    (storeLookup st.accounts (pyStrip accLine) = some acc →
      storeLookup st.accounts (pyStrip toLine) = some acc2 →
      acc.status = 'A' → acc2.status = 'A' → 100000 ≤ acc.balance →
      transfer_transaction st (accLine :: toLine :: "1000.00" :: rest) =
        ({ st with transactions := st.transactions ++
            [{ code := "02", name := acc.holder, account_no := pyStrip accLine,
               amount := 100000, misc := "00" },
             { code := "02", name := acc2.holder, account_no := pyStrip toLine,
               amount := 100000, misc := "00" }] }, rest, true)) ∧
    (∀ amtLine a, storeLookup st.accounts (pyStrip accLine) = some acc →
      storeLookup st.accounts (pyStrip toLine) = some acc2 →
      acc.status = 'A' → acc2.status = 'A' →
      parseAmount (pyStrip amtLine) = some a → 100000 < a →
      transfer_transaction st (accLine :: toLine :: amtLine :: rest) =
        (st, rest, false)) ∧
    (storeLookup st.accounts (zfill (pyStrip accLine) 5) = some acc →
      st.session.user = some acc.holder → 100000 ≤ acc.balance →
      paybill_transaction st (accLine :: "EC" :: "1000.00" :: rest) =
        ({ st with transactions := st.transactions ++
            [{ code := "03", name := acc.holder,
               account_no := zfill (pyStrip accLine) 5,
               amount := 100000, misc := "00" }] }, rest, true)) ∧
    (∀ amtLine a, storeLookup st.accounts (zfill (pyStrip accLine) 5) = some acc →
      st.session.user = some acc.holder →
      parseAmount (pyStrip amtLine) = some a → 100000 < a →
      paybill_transaction st (accLine :: "EC" :: amtLine :: rest) =
        (st, rest, false)) ∧
    (storeLookup st.accounts (zfill (pyStrip accLine) 5) = some acc →
      acc.status = 'A' → st.session.user = some acc.holder →
      deposit_transaction st (accLine :: "1000.00" :: rest) =
        ({ st with transactions := st.transactions ++
            [{ code := "04", name := acc.holder,
               account_no := zfill (pyStrip accLine) 5,
               amount := 100000, misc := "00" }] }, rest, true)) ∧
    (∀ amtLine a, storeLookup st.accounts (zfill (pyStrip accLine) 5) = some acc →
      acc.status = 'A' → st.session.user = some acc.holder →
      parseAmount (pyStrip amtLine) = some a → 100000 < a →
      deposit_transaction st (accLine :: amtLine :: rest) =
        (st, rest, false)) := by
  have hp500 : parseAmount (pyStrip "500.00") = some 50000 := by decide
  have hp1000 : parseAmount (pyStrip "1000.00") = some 100000 := by decide
  have hv500 : validate_amount 50000 = true := by decide
  have hv1000 : validate_amount 100000 = true := by decide
  have hEC : pyUpper (pyStrip "EC") = "EC" := by decide
  refine ⟨fun hacc hbal => ?_, fun amtLine a hacc hpa hgt => ?_,
    fun hacc hacc2 hA1 hA2 hbal => ?_,
    fun amtLine a hacc hacc2 hA1 hA2 hpa hgt => ?_,
    fun hacc huser hbal => ?_, fun amtLine a hacc huser hpa hgt => ?_,
    fun hacc hA huser => ?_, fun amtLine a hacc hA huser hpa hgt => ?_⟩
  · have hb : ¬ acc.balance < 50000 := by omega
    simp [withdrawal_transaction, readLine, hlog, hacc, hp500, hv500, hmode, hb]
  · by_cases hv : a ≤ 99999999
    · have hval : validate_amount a = true := by
        simp only [validate_amount, Bool.and_eq_true, decide_eq_true_eq]
        omega
      simp [withdrawal_transaction, readLine, hlog, hacc, hpa, hval, hmode, hgt]
    · have hval : validate_amount a = false := by
        simp [validate_amount, hv]
      simp [withdrawal_transaction, readLine, hlog, hacc, hpa, hval]
  · have hb : ¬ acc.balance < 100000 := by omega
    simp [transfer_transaction, readLine, hlog, hacc, hacc2, hA1, hA2, hp1000,
      hv1000, hmode, hb]
  · by_cases hv : a ≤ 99999999
    · have hval : validate_amount a = true := by
        simp only [validate_amount, Bool.and_eq_true, decide_eq_true_eq]
        omega
      simp [transfer_transaction, readLine, hlog, hacc, hacc2, hA1, hA2, hpa,
        hval, hmode, hgt]
    · have hval : validate_amount a = false := by
        simp [validate_amount, hv]
      simp [transfer_transaction, readLine, hlog, hacc, hacc2, hA1, hA2, hpa, hval]
  · have hb : ¬ acc.balance < 100000 := by omega
    simp [paybill_transaction, readLine, hlog, hEC, hacc, huser, hp1000, hv1000,
      hmode, hb]
  · by_cases hv : a ≤ 99999999
    · have hval : validate_amount a = true := by
        simp only [validate_amount, Bool.and_eq_true, decide_eq_true_eq]
        omega
      simp [paybill_transaction, readLine, hlog, hEC, hacc, huser, hpa, hval,
        hmode, hgt]
    · have hval : validate_amount a = false := by
        simp [validate_amount, hv]
      simp [paybill_transaction, readLine, hlog, hEC, hacc, huser, hpa, hval]
  · simp [deposit_transaction, readLine, hlog, hacc, hA, huser, hp1000, hv1000,
      hmode]
  · by_cases hv : a ≤ 99999999
    · have hval : validate_amount a = true := by
        simp only [validate_amount, Bool.and_eq_true, decide_eq_true_eq]
        omega
      simp [deposit_transaction, readLine, hlog, hacc, hA, huser, hpa, hval,
        hmode, hgt]
    · have hval : validate_amount a = false := by
        simp [validate_amount, hv]
      simp [deposit_transaction, readLine, hlog, hacc, hA, huser, hpa, hval]

/-- Witness for C6 in the concrete standard session: each ceiling is
accepted at exactly the ceiling and rejected one cent above it. -/
theorem c6_standard_ceilings_witness :
    withdrawal_transaction demoStandard ["00010", "500.00"] =
      ({ demoStandard with transactions :=
          [{ code := "01", name := "Alice Smith", account_no := "00010",
             amount := 50000, misc := "00" }] }, [], true) ∧
    withdrawal_transaction demoStandard ["00010", "500.01"] =
      (demoStandard, [], false) ∧
    transfer_transaction demoStandard ["00010", "00020", "1000.00"] =
      ({ demoStandard with transactions :=
          [{ code := "02", name := "Alice Smith", account_no := "00010",
             amount := 100000, misc := "00" },
           { code := "02", name := "Bob", account_no := "00020",
             amount := 100000, misc := "00" }] }, [], true) ∧
    transfer_transaction demoStandard ["00010", "00020", "1000.01"] =
      (demoStandard, [], false) ∧
    paybill_transaction demoStandard ["00010", "EC", "1000.00"] =
      ({ demoStandard with transactions :=
          [{ code := "03", name := "Alice Smith", account_no := "00010",
             amount := 100000, misc := "00" }] }, [], true) ∧
    paybill_transaction demoStandard ["00010", "EC", "1000.01"] =
      (demoStandard, [], false) ∧
    deposit_transaction demoStandard ["00010", "1000.00"] =
      ({ demoStandard with transactions :=
          [{ code := "04", name := "Alice Smith", account_no := "00010",
             amount := 100000, misc := "00" }] }, [], true) ∧
    deposit_transaction demoStandard ["00010", "1000.01"] =
      (demoStandard, [], false) :=
  ⟨(c6_standard_ceilings demoStandard "00010" "00020" aliceRich bobRich []
      rfl rfl).1 (by decide) (by decide),
   (c6_standard_ceilings demoStandard "00010" "00020" aliceRich bobRich []
      rfl rfl).2.1 "500.01" 50001 (by decide) (by decide) (by decide),
   (c6_standard_ceilings demoStandard "00010" "00020" aliceRich bobRich []
      rfl rfl).2.2.1 (by decide) (by decide) (by decide) (by decide) (by decide),
   (c6_standard_ceilings demoStandard "00010" "00020" aliceRich bobRich []
      rfl rfl).2.2.2.1 "1000.01" 100001 (by decide) (by decide) (by decide)
      (by decide) (by decide) (by decide),
   (c6_standard_ceilings demoStandard "00010" "00020" aliceRich bobRich []
      rfl rfl).2.2.2.2.1 (by decide) (by decide) (by decide),
   (c6_standard_ceilings demoStandard "00010" "00020" aliceRich bobRich []
      rfl rfl).2.2.2.2.2.1 "1000.01" 100001 (by decide) (by decide) (by decide)
      (by decide),
   (c6_standard_ceilings demoStandard "00010" "00020" aliceRich bobRich []
      rfl rfl).2.2.2.2.2.2.1 (by decide) (by decide) (by decide),
   (c6_standard_ceilings demoStandard "00010" "00020" aliceRich bobRich []
      rfl rfl).2.2.2.2.2.2.2 "1000.01" 100001 (by decide) (by decide) (by decide)
      (by decide) (by decide)⟩

end Banking
